import Mathlib

/-
  Verification development for the kubelingo PTY shell session core
  (src/src/cli.rs and src/src/main.rs).

  The central function is run_pty_shell (cli.rs lines 45 to 118). It reads
  two environment variables, creates an optional transcript file, writes a
  transient bash rcfile, opens a pseudoterminal, spawns bash, relays bytes
  in both directions, waits for the child and joins the input thread.

  We embed the program in two layers:
  - a trace model of the two byte-copy loops (cli.rs lines 79 to 113),
    parameterised by the sequence of read results and by oracles saying
    which write_all calls succeed;
  - a sequential effect model of the whole launch (cli.rs lines 45 to 118),
    parameterised by a World record saying which fallible operation fails
    and with what underlying cause.
-/

set_option maxRecDepth 8000

namespace Kubelingo

/-- Result of one read call on a stream: a chunk of bytes (the empty chunk
models a zero-length read, i.e. end of stream) or an I/O error. -/
inductive ReadRes where
  | chunk : List Nat → ReadRes
  | ioErr : ReadRes
deriving DecidableEq

/-- Trace events emitted by one relay direction: a successful read of a
nonempty chunk, end of stream, a failed read, a write_all to the live
destination (pty writer or stdout) with its success bit, a stdout flush,
and a write_all to the transcript with its success bit. -/
inductive Ev where
  | read : List Nat → Ev
  | readEof : Ev
  | readErr : Ev
  | writeDst : List Nat → Bool → Ev
  | flushDst : Ev
  | writeTr : List Nat → Bool → Ev
deriving DecidableEq

/-- Why a relay loop stopped: zero-length read, read error, destination
write error, or it is still running when the modelled read sequence ends. -/
inductive Stop where
  | eof : Stop
  | rdErr : Stop
  | wrErr : Stop
  | pending : Stop
deriving DecidableEq

/-- Size of the stack buffer of both loops: cli.rs lines 81 and 99 declare
a 1024 byte buffer, so every read returns at most 1024 bytes. -/
def bufSize : Nat := 1024

/-- Consume one success bit from a write oracle; an exhausted oracle means
every remaining write succeeds. -/
def takeOk : List Bool → Bool × List Bool
  | [] => (true, [])
  | b :: bs => (b, bs)

/-- Model of the output direction loop, cli.rs lines 100 to 113: read from
the pty master; on a zero read or read error break; otherwise write_all the
chunk to stdout (break on error), flush stdout ignoring the result, and if
a transcript is configured write_all the chunk to it ignoring the result.
Arguments: the pending read results, the stdout write oracle, the
transcript write oracle, and whether a transcript is configured. -/
def outputLoop : List ReadRes → List Bool → List Bool → Bool → List Ev × Stop
  | [], _, _, _ => ([], .pending)
  | .ioErr :: _, _, _, _ => ([.readErr], .rdErr)
  | .chunk [] :: _, _, _, _ => ([.readEof], .eof)
  | .chunk (b :: bs) :: rest, outOk, trOk, hasTr =>
    if (takeOk outOk).1 then
      if hasTr then
        (.read (b :: bs) :: .writeDst (b :: bs) true :: .flushDst ::
            .writeTr (b :: bs) (takeOk trOk).1 ::
            (outputLoop rest (takeOk outOk).2 (takeOk trOk).2 hasTr).1,
          (outputLoop rest (takeOk outOk).2 (takeOk trOk).2 hasTr).2)
      else
        (.read (b :: bs) :: .writeDst (b :: bs) true :: .flushDst ::
            (outputLoop rest (takeOk outOk).2 trOk hasTr).1,
          (outputLoop rest (takeOk outOk).2 trOk hasTr).2)
    else ([.read (b :: bs), .writeDst (b :: bs) false], .wrErr)

/-- Model of the input direction loop, cli.rs lines 82 to 94: read from
stdin; on a zero read or read error break; otherwise write_all the chunk to
the pty writer (break on error) and, if a transcript is configured,
write_all the chunk to it ignoring the result. There is no flush in this
direction. -/
def inputLoop : List ReadRes → List Bool → List Bool → Bool → List Ev × Stop
  | [], _, _, _ => ([], .pending)
  | .ioErr :: _, _, _, _ => ([.readErr], .rdErr)
  | .chunk [] :: _, _, _, _ => ([.readEof], .eof)
  | .chunk (b :: bs) :: rest, outOk, trOk, hasTr =>
    if (takeOk outOk).1 then
      if hasTr then
        (.read (b :: bs) :: .writeDst (b :: bs) true ::
            .writeTr (b :: bs) (takeOk trOk).1 ::
            (inputLoop rest (takeOk outOk).2 (takeOk trOk).2 hasTr).1,
          (inputLoop rest (takeOk outOk).2 (takeOk trOk).2 hasTr).2)
      else
        (.read (b :: bs) :: .writeDst (b :: bs) true ::
            (inputLoop rest (takeOk outOk).2 trOk hasTr).1,
          (inputLoop rest (takeOk outOk).2 trOk hasTr).2)
    else ([.read (b :: bs), .writeDst (b :: bs) false], .wrErr)

/-- Bytes successfully delivered to the live destination of a trace. -/
def deliveredBytes : List Ev → List Nat
  | [] => []
  | .writeDst d true :: rest => d ++ deliveredBytes rest
  | _ :: rest => deliveredBytes rest

/-- Bytes successfully appended to the transcript in a trace. -/
def trBytes : List Ev → List Nat
  | [] => []
  | .writeTr d true :: rest => d ++ trBytes rest
  | _ :: rest => trBytes rest

/-- Bytes accepted (successfully read) from the source stream in a trace. -/
def acceptedBytes : List Ev → List Nat
  | [] => []
  | .read d :: rest => d ++ acceptedBytes rest
  | _ :: rest => acceptedBytes rest

/-- The nonempty chunks a loop would read before its first end of stream or
read error. -/
def goodChunks : List ReadRes → List (List Nat)
  | .chunk (b :: bs) :: rest => (b :: bs) :: goodChunks rest
  | _ => []

/-- Characterisation of when a relay loop stops, computed from the read
results and the destination write oracle alone. -/
def expectedStop : List ReadRes → List Bool → Stop
  | [], _ => .pending
  | .ioErr :: _, _ => .rdErr
  | .chunk [] :: _, _ => .eof
  | .chunk (_ :: _) :: rest, outOk =>
    if (takeOk outOk).1 then expectedStop rest (takeOk outOk).2 else .wrErr

/-- A transcripting output-direction trace is well chunked when it is a
sequence of blocks read, write to stdout, flush, write to transcript, all
of the same chunk, possibly ended by an end-of-stream or read-error mark. -/
def wellChunkedOut : List Ev → Bool
  | [] => true
  | [.readEof] => true
  | [.readErr] => true
  | .read d :: .writeDst d2 true :: .flushDst :: .writeTr d3 true :: rest =>
    d == d2 && d == d3 && wellChunkedOut rest
  | _ => false

/-- A transcripting input-direction trace is well chunked when it is a
sequence of blocks read, write to the pty, write to transcript, all of the
same chunk, possibly ended by an end-of-stream or read-error mark. -/
def wellChunkedIn : List Ev → Bool
  | [] => true
  | [.readEof] => true
  | [.readErr] => true
  | .read d :: .writeDst d2 true :: .writeTr d3 true :: rest =>
    d == d2 && d == d3 && wellChunkedIn rest
  | _ => false

/-- Single quote character, used in the rcfile alias line. -/
def squote : String := String.singleton (Char.ofNat 39)

/-- Content of the transient rcfile as a function of the KUBELINGO_VIM_LOG
environment variable, cli.rs lines 54 to 58: nothing is written when the
variable is unset; otherwise writeln emits one alias line ending in a
newline, interpolating the log path verbatim between single quotes. -/
def rcfileContent : Option String → String
  | none => ""
  | some v => "alias vim=" ++ squote ++ "vim -W " ++ v ++ squote ++ "\n"

/-- The command built for the child shell, cli.rs lines 65 to 68: program
bash, environment variable PS1 set to the sandbox prompt literal, and the
rcfile passed by path after a --rcfile argument. -/
structure Cmd where
  prog : String
  ps1 : String
  args : List String
deriving DecidableEq

/-- Build the child command from the rcfile path, cli.rs lines 65 to 68. -/
def builtCmd (rcPath : String) : Cmd :=
  { prog := "bash", ps1 := "(kubelingo-sandbox)$ ", args := ["--rcfile", rcPath] }

/-- Observable effects of one run of run_pty_shell, in program order. -/
inductive Effect where
  | transcriptCreated : Effect
  | rcfileCreated : Effect
  | rcfileWritten : Effect
  | ptyOpened : Effect
  | childSpawned : Effect
  | slaveClosed : Effect
  | readerCloned : Effect
  | writerTaken : Effect
  | transcriptCloned : Effect
  | relayRan : Effect
  | childWaited : Effect
  | inputJoined : Effect
deriving DecidableEq

/-- How run_pty_shell finishes: normal return, an anyhow error carrying a
context message and the underlying cause, or a panic (expect or unwrap). -/
inductive Outcome where
  | ok : Outcome
  | err : String → String → Outcome
  | panicked : String → Outcome
deriving DecidableEq

/-- Environment of one run: the two environment variables, the temp rcfile
path chosen by the OS, and for each fallible operation either none (it
succeeds) or some cause string (it fails with that cause). -/
structure World where
  transcriptPath : Option String
  vimLog : Option String
  rcPath : String
  transcriptCreate : Option String
  rcfileCreate : Option String
  rcfileWrite : Option String
  openPty : Option String
  spawn : Option String
  cloneReader : Option String
  takeWriter : Option String
  cloneTranscript : Option String
  wait : Option String

/-- Lines 115 to 116: wait for the child; on failure the error is returned
by the question mark operator before the input thread is joined. -/
def waitStage (w : World) : List Effect × Outcome :=
  match w.wait with
  | some c => ([.childWaited], .err "PTY child process failed" c)
  | none => ([.childWaited, .inputJoined], .ok)

/-- Lines 79 and 100 to 113: spawn the input thread and run the output
loop on the main thread, then proceed to wait and join. -/
def relayStage (w : World) : List Effect × Outcome :=
  (.relayRan :: (waitStage w).1, (waitStage w).2)

/-- Line 76: clone the transcript file handle for the input thread; the
unwrap panics if the clone fails; skipped when no transcript is set. -/
def cloneTranscriptStage (w : World) : List Effect × Outcome :=
  match w.transcriptPath with
  | none => relayStage w
  | some _ =>
    match w.cloneTranscript with
    | some _ => ([], .panicked "transcript clone unwrap failed")
    | none => (.transcriptCloned :: (relayStage w).1, (relayStage w).2)

/-- Line 74: take the pty writer, propagating failure with context. -/
def takeWriterStage (w : World) : List Effect × Outcome :=
  match w.takeWriter with
  | some c => ([], .err "Failed to get PTY writer" c)
  | none => (.writerTaken :: (cloneTranscriptStage w).1, (cloneTranscriptStage w).2)

/-- Line 73: clone the pty reader, propagating failure with context. -/
def cloneReaderStage (w : World) : List Effect × Outcome :=
  match w.cloneReader with
  | some c => ([], .err "Failed to clone PTY reader" c)
  | none => (.readerCloned :: (takeWriterStage w).1, (takeWriterStage w).2)

/-- Lines 70 to 71: spawn the shell on the slave side, propagating failure
with context; on success the slave handle is dropped at once. -/
def spawnStage (w : World) : List Effect × Outcome :=
  match w.spawn with
  | some c => ([], .err "Failed to spawn shell" c)
  | none => (.childSpawned :: .slaveClosed :: (cloneReaderStage w).1, (cloneReaderStage w).2)

/-- Lines 60 to 63: open the pseudoterminal, propagating failure. -/
def openPtyStage (w : World) : List Effect × Outcome :=
  match w.openPty with
  | some c => ([], .err "Failed to open PTY" c)
  | none => (.ptyOpened :: (spawnStage w).1, (spawnStage w).2)

/-- Lines 55 to 58: write the vim alias when KUBELINGO_VIM_LOG is set,
propagating failure with context. -/
def writeRcStage (w : World) : List Effect × Outcome :=
  match w.vimLog with
  | none => openPtyStage w
  | some _ =>
    match w.rcfileWrite with
    | some c => ([], .err "Failed to write vim alias to rcfile" c)
    | none => (.rcfileWritten :: (openPtyStage w).1, (openPtyStage w).2)

/-- Line 54: create the temp rcfile, propagating failure with context. -/
def createRcStage (w : World) : List Effect × Outcome :=
  match w.rcfileCreate with
  | some c => ([], .err "Failed to create temp rcfile" c)
  | none => (.rcfileCreated :: (writeRcStage w).1, (writeRcStage w).2)

/-- Model of run_pty_shell, cli.rs lines 45 to 118: lines 50 and 51 create
the transcript file when KUBELINGO_TRANSCRIPT_FILE is set, panicking via
expect on failure, then the remaining stages run in program order. -/
def run_pty_shell (w : World) : List Effect × Outcome :=
  match w.transcriptPath with
  | none => createRcStage w
  | some _ =>
    match w.transcriptCreate with
    | some _ => ([], .panicked "Failed to create transcript file")
    | none => (.transcriptCreated :: (createRcStage w).1, (createRcStage w).2)

/-- Model of the Pty branch of main, main.rs lines 14 to 16: the question
mark operator propagates any error of run_pty_shell out of main. -/
def mainPty (w : World) : Outcome := (run_pty_shell w).2

/-- Effect list of run_pty_shell as a function of eleven success booleans
only; used to decide effect-trace properties by exhaustive evaluation. -/
def flagsEffects (hasTranscript transcriptCreateOk rcfileCreateOk hasVimLog
    rcfileWriteOk openPtyOk spawnOk cloneReaderOk takeWriterOk
    cloneTranscriptOk waitOk : Bool) : List Effect :=
  let tailWait : List Effect :=
    if waitOk then [.childWaited, .inputJoined] else [.childWaited]
  let tailRelay : List Effect := .relayRan :: tailWait
  let tailCloneTr : List Effect :=
    if hasTranscript then
      (if cloneTranscriptOk then .transcriptCloned :: tailRelay else [])
    else tailRelay
  let tailTakeW : List Effect :=
    if takeWriterOk then .writerTaken :: tailCloneTr else []
  let tailCloneR : List Effect :=
    if cloneReaderOk then .readerCloned :: tailTakeW else []
  let tailSpawn : List Effect :=
    if spawnOk then .childSpawned :: .slaveClosed :: tailCloneR else []
  let tailPty : List Effect :=
    if openPtyOk then .ptyOpened :: tailSpawn else []
  let tailWrite : List Effect :=
    if hasVimLog then
      (if rcfileWriteOk then .rcfileWritten :: tailPty else [])
    else tailPty
  let tailCreate : List Effect :=
    if rcfileCreateOk then .rcfileCreated :: tailWrite else []
  if hasTranscript then
    (if transcriptCreateOk then .transcriptCreated :: tailCreate else [])
  else tailCreate

/-- A run in which both environment variables are set and every operation
succeeds. -/
def wAllOk : World :=
  { transcriptPath := some "session.txt", vimLog := some "vim.log",
    rcPath := "rc", transcriptCreate := none, rcfileCreate := none,
    rcfileWrite := none, openPty := none, spawn := none, cloneReader := none,
    takeWriter := none, cloneTranscript := none, wait := none }

/-- A run in which the transcript file cannot be created. -/
def wPanic : World := { wAllOk with transcriptCreate := some "read-only file system" }

/-- A run with no transcript in which the temp rcfile cannot be created. -/
def wRcFail : World :=
  { wAllOk with transcriptPath := none, rcfileCreate := some "EACCES" }

/-- A run with neither environment variable set in which spawning bash
fails. -/
def wSpawnFail : World :=
  { wAllOk with transcriptPath := none, vimLog := none, spawn := some "ENOENT" }

/-- A run with neither environment variable set in which retrieving the
child exit status fails. -/
def wWaitFail : World :=
  { wAllOk with transcriptPath := none, vimLog := none, wait := some "ECHILD" }

/-- A run with neither environment variable set and every operation
succeeding. -/
def wNoLog : World := { wAllOk with transcriptPath := none, vimLog := none }

/-- The effect trace of a run depends only on which operations succeed. -/
theorem run_effects_eq (w : World) :
    (run_pty_shell w).1 =
      flagsEffects w.transcriptPath.isSome w.transcriptCreate.isNone
        w.rcfileCreate.isNone w.vimLog.isSome w.rcfileWrite.isNone
        w.openPty.isNone w.spawn.isNone w.cloneReader.isNone
        w.takeWriter.isNone w.cloneTranscript.isNone w.wait.isNone := by
  unfold run_pty_shell flagsEffects createRcStage writeRcStage openPtyStage
    spawnStage cloneReaderStage takeWriterStage cloneTranscriptStage
    relayStage waitStage
  rcases w with ⟨tp, vl, rp, tc, rc, rw, op, sp, cr, tw, ct, wt⟩
  cases tp <;> cases tc <;> cases rc <;> cases vl <;> cases rw <;>
    cases op <;> cases sp <;> cases cr <;> cases tw <;> cases ct <;>
    cases wt <;> rfl

/-- An all-true write oracle yields a successful write and an all-true
remainder. -/
theorem takeOk_true {l : List Bool} (h : ∀ b ∈ l, b = true) :
    (takeOk l).1 = true ∧ ∀ b ∈ (takeOk l).2, b = true := by
  cases l with
  | nil => simp [takeOk]
  | cons b bs =>
    exact ⟨h b (List.mem_cons_self b bs), fun x hx => h x (List.mem_cons_of_mem b hx)⟩

/-- In a transcripting output-direction run in which every write succeeds,
the transcript bytes and the delivered bytes both coincide with the bytes
accepted from the pty reader. -/
theorem outputLoop_bytes (reads : List ReadRes) :
    ∀ outOk trOk : List Bool, (∀ b ∈ outOk, b = true) → (∀ b ∈ trOk, b = true) →
      trBytes (outputLoop reads outOk trOk true).1
          = acceptedBytes (outputLoop reads outOk trOk true).1 ∧
        deliveredBytes (outputLoop reads outOk trOk true).1
          = acceptedBytes (outputLoop reads outOk trOk true).1 := by
  induction reads with
  | nil => intro outOk trOk _ _; simp [outputLoop, trBytes, acceptedBytes, deliveredBytes]
  | cons r rest ih =>
    intro outOk trOk h1 h2
    cases r with
    | ioErr => simp [outputLoop, trBytes, acceptedBytes, deliveredBytes]
    | chunk d =>
      cases d with
      | nil => simp [outputLoop, trBytes, acceptedBytes, deliveredBytes]
      | cons b bs =>
        obtain ⟨ho1, ho2⟩ := takeOk_true h1
        obtain ⟨ht1, ht2⟩ := takeOk_true h2
        obtain ⟨iha, ihb⟩ := ih (takeOk outOk).2 (takeOk trOk).2 ho2 ht2
        simp [outputLoop, ho1, ht1, trBytes, acceptedBytes, deliveredBytes, iha, ihb]

/-- In a transcripting input-direction run in which every write succeeds,
the transcript bytes and the delivered bytes both coincide with the bytes
accepted from stdin. -/
theorem inputLoop_bytes (reads : List ReadRes) :
    ∀ outOk trOk : List Bool, (∀ b ∈ outOk, b = true) → (∀ b ∈ trOk, b = true) →
      trBytes (inputLoop reads outOk trOk true).1
          = acceptedBytes (inputLoop reads outOk trOk true).1 ∧
        deliveredBytes (inputLoop reads outOk trOk true).1
          = acceptedBytes (inputLoop reads outOk trOk true).1 := by
  induction reads with
  | nil => intro outOk trOk _ _; simp [inputLoop, trBytes, acceptedBytes, deliveredBytes]
  | cons r rest ih =>
    intro outOk trOk h1 h2
    cases r with
    | ioErr => simp [inputLoop, trBytes, acceptedBytes, deliveredBytes]
    | chunk d =>
      cases d with
      | nil => simp [inputLoop, trBytes, acceptedBytes, deliveredBytes]
      | cons b bs =>
        obtain ⟨ho1, ho2⟩ := takeOk_true h1
        obtain ⟨ht1, ht2⟩ := takeOk_true h2
        obtain ⟨iha, ihb⟩ := ih (takeOk outOk).2 (takeOk trOk).2 ho2 ht2
        simp [inputLoop, ho1, ht1, trBytes, acceptedBytes, deliveredBytes, iha, ihb]

/-- When every destination write succeeds, the bytes delivered by the
output direction are exactly the concatenation, in order, of the chunks
read before the first end of stream or read error. -/
theorem outputLoop_delivered (reads : List ReadRes) :
    ∀ outOk trOk : List Bool, ∀ hasTr : Bool, (∀ b ∈ outOk, b = true) →
      deliveredBytes (outputLoop reads outOk trOk hasTr).1 = (goodChunks reads).flatten := by
  induction reads with
  | nil => intro outOk trOk hasTr _; simp [outputLoop, deliveredBytes, goodChunks]
  | cons r rest ih =>
    intro outOk trOk hasTr h1
    cases r with
    | ioErr => simp [outputLoop, deliveredBytes, goodChunks]
    | chunk d =>
      cases d with
      | nil => simp [outputLoop, deliveredBytes, goodChunks]
      | cons b bs =>
        obtain ⟨ho1, ho2⟩ := takeOk_true h1
        cases hasTr with
        | true =>
          simp [outputLoop, ho1, deliveredBytes, goodChunks,
            ih (takeOk outOk).2 (takeOk trOk).2 true ho2]
        | false =>
          simp [outputLoop, ho1, deliveredBytes, goodChunks,
            ih (takeOk outOk).2 trOk false ho2]

/-- When every destination write succeeds, the bytes delivered by the
input direction are exactly the concatenation, in order, of the chunks
read before the first end of stream or read error. -/
theorem inputLoop_delivered (reads : List ReadRes) :
    ∀ outOk trOk : List Bool, ∀ hasTr : Bool, (∀ b ∈ outOk, b = true) →
      deliveredBytes (inputLoop reads outOk trOk hasTr).1 = (goodChunks reads).flatten := by
  induction reads with
  | nil => intro outOk trOk hasTr _; simp [inputLoop, deliveredBytes, goodChunks]
  | cons r rest ih =>
    intro outOk trOk hasTr h1
    cases r with
    | ioErr => simp [inputLoop, deliveredBytes, goodChunks]
    | chunk d =>
      cases d with
      | nil => simp [inputLoop, deliveredBytes, goodChunks]
      | cons b bs =>
        obtain ⟨ho1, ho2⟩ := takeOk_true h1
        cases hasTr with
        | true =>
          simp [inputLoop, ho1, deliveredBytes, goodChunks,
            ih (takeOk outOk).2 (takeOk trOk).2 true ho2]
        | false =>
          simp [inputLoop, ho1, deliveredBytes, goodChunks,
            ih (takeOk outOk).2 trOk false ho2]

/-- When every write succeeds, a transcripting output-direction trace is
well chunked: each chunk is written to stdout, flushed and appended to the
transcript before the next read appears in the trace. -/
theorem outputLoop_wellChunked (reads : List ReadRes) :
    ∀ outOk trOk : List Bool, (∀ b ∈ outOk, b = true) → (∀ b ∈ trOk, b = true) →
      wellChunkedOut (outputLoop reads outOk trOk true).1 = true := by
  induction reads with
  | nil => intro outOk trOk _ _; simp [outputLoop, wellChunkedOut]
  | cons r rest ih =>
    intro outOk trOk h1 h2
    cases r with
    | ioErr => simp [outputLoop, wellChunkedOut]
    | chunk d =>
      cases d with
      | nil => simp [outputLoop, wellChunkedOut]
      | cons b bs =>
        obtain ⟨ho1, ho2⟩ := takeOk_true h1
        obtain ⟨ht1, ht2⟩ := takeOk_true h2
        simp [outputLoop, ho1, ht1, wellChunkedOut,
          ih (takeOk outOk).2 (takeOk trOk).2 ho2 ht2]

/-- When every write succeeds, a transcripting input-direction trace is
well chunked: each chunk is written to the pty and appended to the
transcript before the next read appears in the trace. -/
theorem inputLoop_wellChunked (reads : List ReadRes) :
    ∀ outOk trOk : List Bool, (∀ b ∈ outOk, b = true) → (∀ b ∈ trOk, b = true) →
      wellChunkedIn (inputLoop reads outOk trOk true).1 = true := by
  induction reads with
  | nil => intro outOk trOk _ _; simp [inputLoop, wellChunkedIn]
  | cons r rest ih =>
    intro outOk trOk h1 h2
    cases r with
    | ioErr => simp [inputLoop, wellChunkedIn]
    | chunk d =>
      cases d with
      | nil => simp [inputLoop, wellChunkedIn]
      | cons b bs =>
        obtain ⟨ho1, ho2⟩ := takeOk_true h1
        obtain ⟨ht1, ht2⟩ := takeOk_true h2
        simp [inputLoop, ho1, ht1, wellChunkedIn,
          ih (takeOk outOk).2 (takeOk trOk).2 ho2 ht2]

/-- Every chunk written to the live destination by the output direction
was a chunk read from the pty reader. -/
theorem outputLoop_writes_from_reads (reads : List ReadRes) :
    ∀ outOk trOk : List Bool, ∀ hasTr ok : Bool, ∀ d : List Nat,
      Ev.writeDst d ok ∈ (outputLoop reads outOk trOk hasTr).1 →
      ReadRes.chunk d ∈ reads := by
  induction reads with
  | nil => intro outOk trOk hasTr ok d h; simp [outputLoop] at h
  | cons r rest ih =>
    intro outOk trOk hasTr ok d h
    cases r with
    | ioErr => simp [outputLoop] at h
    | chunk c =>
      cases c with
      | nil => simp [outputLoop] at h
      | cons b bs =>
        by_cases ho : (takeOk outOk).1 = true
        · cases hasTr with
          | true =>
            simp [outputLoop, ho] at h
            rcases h with ⟨hd, _⟩ | h
            · subst hd; exact List.mem_cons_self _ _
            · exact List.mem_cons_of_mem _ (ih (takeOk outOk).2 (takeOk trOk).2 true ok d h)
          | false =>
            simp [outputLoop, ho] at h
            rcases h with ⟨hd, _⟩ | h
            · subst hd; exact List.mem_cons_self _ _
            · exact List.mem_cons_of_mem _ (ih (takeOk outOk).2 trOk false ok d h)
        · simp [outputLoop, ho] at h
          obtain ⟨hd, _⟩ := h
          subst hd; exact List.mem_cons_self _ _

/-- Every chunk written to the live destination by the input direction was
a chunk read from stdin. -/
theorem inputLoop_writes_from_reads (reads : List ReadRes) :
    ∀ outOk trOk : List Bool, ∀ hasTr ok : Bool, ∀ d : List Nat,
      Ev.writeDst d ok ∈ (inputLoop reads outOk trOk hasTr).1 →
      ReadRes.chunk d ∈ reads := by
  induction reads with
  | nil => intro outOk trOk hasTr ok d h; simp [inputLoop] at h
  | cons r rest ih =>
    intro outOk trOk hasTr ok d h
    cases r with
    | ioErr => simp [inputLoop] at h
    | chunk c =>
      cases c with
      | nil => simp [inputLoop] at h
      | cons b bs =>
        by_cases ho : (takeOk outOk).1 = true
        · cases hasTr with
          | true =>
            simp [inputLoop, ho] at h
            rcases h with ⟨hd, _⟩ | h
            · subst hd; exact List.mem_cons_self _ _
            · exact List.mem_cons_of_mem _ (ih (takeOk outOk).2 (takeOk trOk).2 true ok d h)
          | false =>
            simp [inputLoop, ho] at h
            rcases h with ⟨hd, _⟩ | h
            · subst hd; exact List.mem_cons_self _ _
            · exact List.mem_cons_of_mem _ (ih (takeOk outOk).2 trOk false ok d h)
        · simp [inputLoop, ho] at h
          obtain ⟨hd, _⟩ := h
          subst hd; exact List.mem_cons_self _ _

/-- The stop reason of the output loop is fully characterised by the read
results and the destination write oracle. -/
theorem outputLoop_stop (reads : List ReadRes) :
    ∀ outOk trOk : List Bool, ∀ hasTr : Bool,
      (outputLoop reads outOk trOk hasTr).2 = expectedStop reads outOk := by
  induction reads with
  | nil => intro outOk trOk hasTr; rfl
  | cons r rest ih =>
    intro outOk trOk hasTr
    cases r with
    | ioErr => rfl
    | chunk d =>
      cases d with
      | nil => rfl
      | cons b bs =>
        by_cases ho : (takeOk outOk).1 = true
        · cases hasTr with
          | true => simp [outputLoop, expectedStop, ho, ih]
          | false => simp [outputLoop, expectedStop, ho, ih]
        · simp [outputLoop, expectedStop, ho]

/-- The stop reason of the input loop is fully characterised by the read
results and the destination write oracle. -/
theorem inputLoop_stop (reads : List ReadRes) :
    ∀ outOk trOk : List Bool, ∀ hasTr : Bool,
      (inputLoop reads outOk trOk hasTr).2 = expectedStop reads outOk := by
  induction reads with
  | nil => intro outOk trOk hasTr; rfl
  | cons r rest ih =>
    intro outOk trOk hasTr
    cases r with
    | ioErr => rfl
    | chunk d =>
      cases d with
      | nil => rfl
      | cons b bs =>
        by_cases ho : (takeOk outOk).1 = true
        · cases hasTr with
          | true => simp [inputLoop, expectedStop, ho, ih]
          | false => simp [inputLoop, expectedStop, ho, ih]
        · simp [inputLoop, expectedStop, ho]

/-- While every read yields a nonempty chunk and every destination write
succeeds, a relay loop does not stop. -/
theorem expectedStop_pending (reads : List ReadRes) :
    ∀ outOk : List Bool, (∀ b ∈ outOk, b = true) →
      (∀ r ∈ reads, ∃ b bs, r = ReadRes.chunk (b :: bs)) →
      expectedStop reads outOk = Stop.pending := by
  induction reads with
  | nil => intro outOk _ _; rfl
  | cons r rest ih =>
    intro outOk h1 h2
    obtain ⟨b, bs, hr⟩ := h2 r (List.mem_cons_self r rest)
    subst hr
    obtain ⟨ho1, ho2⟩ := takeOk_true h1
    simp [expectedStop, ho1,
      ih (takeOk outOk).2 ho2 (fun x hx => h2 x (List.mem_cons_of_mem _ hx))]

/-- When the transcript file step does not panic, the outcome of a run is
the outcome of the rcfile stage onwards. -/
theorem run_snd (w : World) (hT : w.transcriptPath = none ∨ w.transcriptCreate = none) :
    (run_pty_shell w).2 = (createRcStage w).2 := by
  rcases hT with h | h
  · simp [run_pty_shell, h]
  · cases htp : w.transcriptPath <;> simp [run_pty_shell, htp, h]

/-- When rcfile creation succeeds, the rcfile stage defers to the write
stage. -/
theorem createRc_snd (w : World) (h : w.rcfileCreate = none) :
    (createRcStage w).2 = (writeRcStage w).2 := by
  simp [createRcStage, h]

/-- When the alias write is skipped or succeeds, the write stage defers to
the pty stage. -/
theorem writeRc_snd (w : World) (h : w.vimLog = none ∨ w.rcfileWrite = none) :
    (writeRcStage w).2 = (openPtyStage w).2 := by
  rcases h with h | h
  · simp [writeRcStage, h]
  · cases hv : w.vimLog <;> simp [writeRcStage, hv, h]

/-- When the pty opens, the pty stage defers to the spawn stage. -/
theorem openPty_snd (w : World) (h : w.openPty = none) :
    (openPtyStage w).2 = (spawnStage w).2 := by
  simp [openPtyStage, h]

/-- When the spawn succeeds, the spawn stage defers to the reader stage. -/
theorem spawn_snd (w : World) (h : w.spawn = none) :
    (spawnStage w).2 = (cloneReaderStage w).2 := by
  simp [spawnStage, h]

/-- When the reader clone succeeds, its stage defers to the writer stage. -/
theorem cloneReader_snd (w : World) (h : w.cloneReader = none) :
    (cloneReaderStage w).2 = (takeWriterStage w).2 := by
  simp [cloneReaderStage, h]

/-- When the writer is taken, its stage defers to the transcript clone. -/
theorem takeWriter_snd (w : World) (h : w.takeWriter = none) :
    (takeWriterStage w).2 = (cloneTranscriptStage w).2 := by
  simp [takeWriterStage, h]

/-- When the transcript clone is skipped or succeeds, its stage defers to
the relay, and the relay defers to the wait. -/
theorem cloneTranscript_snd (w : World)
    (h : w.transcriptPath = none ∨ w.cloneTranscript = none) :
    (cloneTranscriptStage w).2 = (waitStage w).2 := by
  rcases h with h | h
  · simp [cloneTranscriptStage, relayStage, h]
  · cases htp : w.transcriptPath <;> simp [cloneTranscriptStage, relayStage, htp, h]

/-- Outcome of a run that reaches the rcfile step, in terms of the later
stages. -/
theorem run_snd_to_openPty (w : World)
    (hT : w.transcriptPath = none ∨ w.transcriptCreate = none)
    (hc : w.rcfileCreate = none) (hwv : w.vimLog = none ∨ w.rcfileWrite = none) :
    (run_pty_shell w).2 = (openPtyStage w).2 := by
  rw [run_snd w hT, createRc_snd w hc, writeRc_snd w hwv]

/-- Outcome of a run that reaches the wait on the child, in terms of the
wait stage. -/
theorem run_snd_to_wait (w : World)
    (hT : w.transcriptPath = none ∨ w.transcriptCreate = none)
    (hc : w.rcfileCreate = none) (hwv : w.vimLog = none ∨ w.rcfileWrite = none)
    (hp : w.openPty = none) (hs : w.spawn = none) (hr : w.cloneReader = none)
    (htw : w.takeWriter = none)
    (hct : w.transcriptPath = none ∨ w.cloneTranscript = none) :
    (run_pty_shell w).2 = (waitStage w).2 := by
  rw [run_snd_to_openPty w hT hc hwv, openPty_snd w hp, spawn_snd w hs,
    cloneReader_snd w hr, takeWriter_snd w htw, cloneTranscript_snd w hct]

/-- In every effect trace, the spawn of the child is immediately followed
by the drop of the subordinate side handle. -/
theorem flags_spawn_slave : ∀ a b c d e f g h i j k : Bool,
    Effect.childSpawned ∈ flagsEffects a b c d e f g h i j k →
    [Effect.childSpawned, Effect.slaveClosed] <:+: flagsEffects a b c d e f g h i j k := by
  decide

/-- In every effect trace that contains the relay, the wait on the child
immediately follows the relay. -/
theorem flags_relay_wait : ∀ a b c d e f g h i j k : Bool,
    Effect.relayRan ∈ flagsEffects a b c d e f g h i j k →
    [Effect.relayRan, Effect.childWaited] <:+: flagsEffects a b c d e f g h i j k := by
  decide

/-- In every effect trace that joins the input thread, the trace ends with
relay, wait, join, in that order. -/
theorem flags_join_order : ∀ a b c d e f g h i j k : Bool,
    Effect.inputJoined ∈ flagsEffects a b c d e f g h i j k →
    [Effect.relayRan, Effect.childWaited, Effect.inputJoined] <:+
      flagsEffects a b c d e f g h i j k := by
  decide

/-- When rcfile creation fails, no pty is opened and no child spawned. -/
theorem flags_noRcCreate : ∀ a b d e f g h i j k : Bool,
    Effect.ptyOpened ∉ flagsEffects a b false d e f g h i j k ∧
    Effect.childSpawned ∉ flagsEffects a b false d e f g h i j k := by
  decide

/-- When the alias write fails, no pty is opened and no child spawned. -/
theorem flags_noRcWrite : ∀ a b c f g h i j k : Bool,
    Effect.ptyOpened ∉ flagsEffects a b c true false f g h i j k ∧
    Effect.childSpawned ∉ flagsEffects a b c true false f g h i j k := by
  decide

/-- When the wait on the child fails, the input thread is never joined,
though the wait itself ran once the run reached the relay. -/
theorem flags_wait_fail : ∀ a b d e j : Bool,
    (a = false ∨ b = true) → (a = false ∨ j = true) → (d = false ∨ e = true) →
    Effect.childWaited ∈ flagsEffects a b true d e true true true true j false ∧
    Effect.inputJoined ∉ flagsEffects a b true d e true true true true j false := by
  decide

/-- When no alias is requested and the rcfile step succeeds, the rcfile is
still created. -/
theorem flags_rcCreated : ∀ a b e f g h i j k : Bool,
    (a = false ∨ b = true) →
    Effect.rcfileCreated ∈ flagsEffects a b true false e f g h i j k := by
  decide

/-- Claim C1 counterexample: with transcripting enabled, when the single
transcript write of the output direction fails (its result is discarded by
the code), the byte is delivered to the real output stream but missing
from the transcript, so the transcript length differs from the sum of the
bytes delivered to the real output plus the bytes accepted from the real
input. -/
theorem claim_C1_counterexample :
    (trBytes (outputLoop [ReadRes.chunk [65], ReadRes.chunk []] [] [false] true).1).length +
        (trBytes (inputLoop [ReadRes.chunk []] [] [] true).1).length ≠
      (deliveredBytes (outputLoop [ReadRes.chunk [65], ReadRes.chunk []] [] [false] true).1).length +
        (acceptedBytes (inputLoop [ReadRes.chunk []] [] [] true).1).length := by
  decide

/-- Claim C1 (amended): with transcripting enabled, provided every write
to the live streams and to the transcript succeeds, the transcript byte
length equals the bytes delivered to the real output stream plus the bytes
accepted from the real input stream; without that proviso the code
discards transcript write errors, so bytes can reach the live stream yet
be dropped from the transcript. -/
theorem claim_C1 (outReads inReads : List ReadRes) (oOk oTr iOk iTr : List Bool)
    (h1 : ∀ b ∈ oOk, b = true) (h2 : ∀ b ∈ oTr, b = true)
    (h3 : ∀ b ∈ iOk, b = true) (h4 : ∀ b ∈ iTr, b = true) :
    (trBytes (outputLoop outReads oOk oTr true).1).length +
        (trBytes (inputLoop inReads iOk iTr true).1).length =
      (deliveredBytes (outputLoop outReads oOk oTr true).1).length +
        (acceptedBytes (inputLoop inReads iOk iTr true).1).length := by
  obtain ⟨o1, o2⟩ := outputLoop_bytes outReads oOk oTr h1 h2
  obtain ⟨i1, _⟩ := inputLoop_bytes inReads iOk iTr h3 h4
  rw [o1, o2, i1]

/-- Claim C1 witness: the amended transcript accounting at a concrete run
in which every write succeeds. -/
theorem claim_C1_witness :
    (trBytes (outputLoop [ReadRes.chunk [65], ReadRes.chunk []] [] [] true).1).length +
        (trBytes (inputLoop [ReadRes.chunk [66], ReadRes.ioErr] [] [] true).1).length =
      (deliveredBytes (outputLoop [ReadRes.chunk [65], ReadRes.chunk []] [] [] true).1).length +
        (acceptedBytes (inputLoop [ReadRes.chunk [66], ReadRes.ioErr] [] [] true).1).length :=
  claim_C1 [ReadRes.chunk [65], ReadRes.chunk []] [ReadRes.chunk [66], ReadRes.ioErr]
    [] [] [] [] (by simp) (by simp) (by simp) (by simp)

/-- Claim C3 counterexample: the output loop also ends when a write to the
real output stream fails, even though the pty read neither returned zero
bytes nor failed and a further chunk was still pending. -/
theorem claim_C3_counterexample :
    (outputLoop [ReadRes.chunk [65], ReadRes.chunk [66]] [false] [] true).2 = Stop.wrErr ∧
    Stop.wrErr ≠ Stop.eof ∧ Stop.wrErr ≠ Stop.rdErr ∧ Stop.wrErr ≠ Stop.pending := by
  decide

/-- Claim C3 (amended): the output-direction loop ends exactly when the
pty read returns zero bytes, the read fails, or a write to the real output
stream fails, as characterised by expectedStop; it never ends while reads
yield data and writes succeed; and after the relay the run waits on the
child immediately, and whenever the input thread is joined the run ends
with relay, wait, join, in that order. -/
theorem claim_C3 :
    (∀ reads : List ReadRes, ∀ outOk trOk : List Bool, ∀ hasTr : Bool,
        (outputLoop reads outOk trOk hasTr).2 = expectedStop reads outOk) ∧
    (∀ reads : List ReadRes, ∀ outOk : List Bool, (∀ b ∈ outOk, b = true) →
        (∀ r ∈ reads, ∃ b bs, r = ReadRes.chunk (b :: bs)) →
        expectedStop reads outOk = Stop.pending) ∧
    (∀ w : World, Effect.relayRan ∈ (run_pty_shell w).1 →
        [Effect.relayRan, Effect.childWaited] <:+: (run_pty_shell w).1) ∧
    (∀ w : World, Effect.inputJoined ∈ (run_pty_shell w).1 →
        [Effect.relayRan, Effect.childWaited, Effect.inputJoined] <:+ (run_pty_shell w).1) := by
  refine ⟨outputLoop_stop, expectedStop_pending, ?_, ?_⟩
  · intro w h
    rw [run_effects_eq w] at h ⊢
    exact flags_relay_wait _ _ _ _ _ _ _ _ _ _ _ h
  · intro w h
    rw [run_effects_eq w] at h ⊢
    exact flags_join_order _ _ _ _ _ _ _ _ _ _ _ h

/-- Claim C3 witness: the stop characterisation, the no-stop property and
the wait-then-join order at concrete inputs. -/
theorem claim_C3_witness :
    (outputLoop [ReadRes.chunk [65]] [] [] true).2 = expectedStop [ReadRes.chunk [65]] [] ∧
    expectedStop [ReadRes.chunk [65]] [] = Stop.pending ∧
    [Effect.relayRan, Effect.childWaited, Effect.inputJoined] <:+ (run_pty_shell wAllOk).1 :=
  ⟨claim_C3.1 [ReadRes.chunk [65]] [] [] true,
    claim_C3.2.1 [ReadRes.chunk [65]] [] (by simp)
      (by intro r hr; simp at hr; exact ⟨65, [], hr⟩),
    claim_C3.2.2.2 wAllOk (by decide)⟩

/-- Claim C4: if the transient rcfile cannot be created, or the alias line
cannot be written to it, run_pty_shell returns the corresponding error and
its effect trace contains neither a pty allocation nor a child spawn. -/
theorem claim_C4 (w : World) (v c : String)
    (hT : w.transcriptPath = none ∨ w.transcriptCreate = none) :
    (w.rcfileCreate = some c →
      (run_pty_shell w).2 = Outcome.err "Failed to create temp rcfile" c ∧
      Effect.ptyOpened ∉ (run_pty_shell w).1 ∧
      Effect.childSpawned ∉ (run_pty_shell w).1) ∧
    (w.rcfileCreate = none → w.vimLog = some v → w.rcfileWrite = some c →
      (run_pty_shell w).2 = Outcome.err "Failed to write vim alias to rcfile" c ∧
      Effect.ptyOpened ∉ (run_pty_shell w).1 ∧
      Effect.childSpawned ∉ (run_pty_shell w).1) := by
  constructor
  · intro hc
    refine ⟨?_, ?_, ?_⟩
    · rw [run_snd w hT]; simp [createRcStage, hc]
    · rw [run_effects_eq w]
      simp only [hc, Option.isNone_some]
      exact (flags_noRcCreate _ _ _ _ _ _ _ _ _ _).1
    · rw [run_effects_eq w]
      simp only [hc, Option.isNone_some]
      exact (flags_noRcCreate _ _ _ _ _ _ _ _ _ _).2
  · intro hc hv hw
    refine ⟨?_, ?_, ?_⟩
    · rw [run_snd w hT, createRc_snd w hc]; simp [writeRcStage, hv, hw]
    · rw [run_effects_eq w]
      simp only [hv, hw, Option.isSome_some, Option.isNone_some]
      exact (flags_noRcWrite _ _ _ _ _ _ _ _ _).1
    · rw [run_effects_eq w]
      simp only [hv, hw, Option.isSome_some, Option.isNone_some]
      exact (flags_noRcWrite _ _ _ _ _ _ _ _ _).2

/-- Claim C4 witness: a run whose rcfile creation fails returns the rcfile
error and neither opens a pty nor spawns a child. -/
theorem claim_C4_witness :
    (run_pty_shell wRcFail).2 = Outcome.err "Failed to create temp rcfile" "EACCES" ∧
    Effect.ptyOpened ∉ (run_pty_shell wRcFail).1 ∧
    Effect.childSpawned ∉ (run_pty_shell wRcFail).1 :=
  (claim_C4 wRcFail "" "EACCES" (Or.inl rfl)).1 rfl

/-- Claim C5 counterexample: the generated start-up script does not set
the prompt variable; with no vim log configured it is empty, and even with
one configured it contains no occurrence of PS1 at all. -/
theorem claim_C5_counterexample :
    rcfileContent none = "" ∧
    ¬ ("PS1".data <:+: (rcfileContent none).data) ∧
    ¬ ("PS1".data <:+: (rcfileContent (some "vim.log")).data) :=
  ⟨rfl, by decide, by decide⟩

/-- Claim C5 (amended): the distinguishing prompt is not set by the
start-up script; it is injected as the environment variable PS1 of the
spawned bash command with the opaque literal sandbox prompt, while the
script itself sets no prompt (it is empty when no vim log is configured). -/
theorem claim_C5 (p : String) :
    (builtCmd p).ps1 = "(kubelingo-sandbox)$ " ∧
    (builtCmd p).prog = "bash" ∧
    rcfileContent none = "" ∧
    ¬ ("PS1".data <:+: (rcfileContent none).data) :=
  ⟨rfl, rfl, rfl, by decide⟩

/-- Claim C5 witness: the amended prompt facts at a concrete rcfile
path. -/
theorem claim_C5_witness :
    (builtCmd "rc").ps1 = "(kubelingo-sandbox)$ " ∧
    (builtCmd "rc").prog = "bash" ∧
    rcfileContent none = "" ∧
    ¬ ("PS1".data <:+: (rcfileContent none).data) :=
  claim_C5 "rc"

/-- Claim C6: each relay direction reads into the bounded 1024 byte
buffer, every chunk written to a destination was a chunk read from the
source and respects the bound, with all writes succeeding each trace is a
sequence of read, forward, append blocks with no interleaving across
blocks, and the delivered bytes are the read chunks concatenated in
order. -/
theorem claim_C6 (outReads inReads : List ReadRes) (oOk oTr iOk iTr : List Bool)
    (h1 : ∀ b ∈ oOk, b = true) (h2 : ∀ b ∈ oTr, b = true)
    (h3 : ∀ b ∈ iOk, b = true) (h4 : ∀ b ∈ iTr, b = true)
    (hbO : ∀ d, ReadRes.chunk d ∈ outReads → d.length ≤ bufSize)
    (hbI : ∀ d, ReadRes.chunk d ∈ inReads → d.length ≤ bufSize) :
    wellChunkedOut (outputLoop outReads oOk oTr true).1 = true ∧
    wellChunkedIn (inputLoop inReads iOk iTr true).1 = true ∧
    deliveredBytes (outputLoop outReads oOk oTr true).1 = (goodChunks outReads).flatten ∧
    deliveredBytes (inputLoop inReads iOk iTr true).1 = (goodChunks inReads).flatten ∧
    (∀ d ok, Ev.writeDst d ok ∈ (outputLoop outReads oOk oTr true).1 → d.length ≤ bufSize) ∧
    (∀ d ok, Ev.writeDst d ok ∈ (inputLoop inReads iOk iTr true).1 → d.length ≤ bufSize) := by
  refine ⟨outputLoop_wellChunked _ _ _ h1 h2, inputLoop_wellChunked _ _ _ h3 h4,
    outputLoop_delivered _ _ _ _ h1, inputLoop_delivered _ _ _ _ h3, ?_, ?_⟩
  · intro d ok hm
    exact hbO d (outputLoop_writes_from_reads _ _ _ _ _ _ hm)
  · intro d ok hm
    exact hbI d (inputLoop_writes_from_reads _ _ _ _ _ _ hm)

/-- Claim C6 witness: the chunking properties at a concrete pair of runs
in which every write succeeds. -/
theorem claim_C6_witness :
    wellChunkedOut (outputLoop [ReadRes.chunk [7], ReadRes.chunk []] [] [] true).1 = true ∧
    wellChunkedIn (inputLoop [ReadRes.chunk [8], ReadRes.ioErr] [] [] true).1 = true ∧
    deliveredBytes (outputLoop [ReadRes.chunk [7], ReadRes.chunk []] [] [] true).1 =
      (goodChunks [ReadRes.chunk [7], ReadRes.chunk []]).flatten ∧
    deliveredBytes (inputLoop [ReadRes.chunk [8], ReadRes.ioErr] [] [] true).1 =
      (goodChunks [ReadRes.chunk [8], ReadRes.ioErr]).flatten ∧
    (∀ d ok, Ev.writeDst d ok ∈ (outputLoop [ReadRes.chunk [7], ReadRes.chunk []] [] [] true).1 →
      d.length ≤ bufSize) ∧
    (∀ d ok, Ev.writeDst d ok ∈ (inputLoop [ReadRes.chunk [8], ReadRes.ioErr] [] [] true).1 →
      d.length ≤ bufSize) :=
  claim_C6 [ReadRes.chunk [7], ReadRes.chunk []] [ReadRes.chunk [8], ReadRes.ioErr]
    [] [] [] [] (by simp) (by simp) (by simp) (by simp)
    (by intro d hd; simp at hd; rcases hd with h | h <;> subst h <;> simp [bufSize])
    (by intro d hd; simp at hd; subst hd; simp [bufSize])

/-- Claim C7: whenever a run spawns the child shell, the drop of the
subordinate side handle is the immediately following effect, so the parent
retains only the controlling side from the moment of the spawn on. -/
theorem claim_C7 (w : World)
    (h : Effect.childSpawned ∈ (run_pty_shell w).1) :
    [Effect.childSpawned, Effect.slaveClosed] <:+: (run_pty_shell w).1 := by
  rw [run_effects_eq w] at h ⊢
  exact flags_spawn_slave _ _ _ _ _ _ _ _ _ _ _ h

/-- Claim C7 witness: the spawn and drop adjacency in the all-success
run. -/
theorem claim_C7_witness :
    [Effect.childSpawned, Effect.slaveClosed] <:+: (run_pty_shell wAllOk).1 :=
  claim_C7 wAllOk (by decide)

/-- Claim C8 counterexample: a failure to create the transcript file is a
pre-spawn I/O failure, yet run_pty_shell panics through expect instead of
returning an error value to the caller. -/
theorem claim_C8_counterexample :
    (run_pty_shell wPanic).2 = Outcome.panicked "Failed to create transcript file" ∧
    (run_pty_shell wPanic).1 = [] :=
  ⟨rfl, rfl⟩

/-- Claim C8 (amended): every pre-spawn failure of the rcfile creation,
the alias write, the pty allocation or the shell spawn aborts the launch
and is returned as an error with its context and underlying cause intact;
a transcript file creation failure instead aborts the process by a
panic. -/
theorem claim_C8 (w : World)
    (hT : w.transcriptPath = none ∨ w.transcriptCreate = none) :
    (∀ c, w.rcfileCreate = some c →
        (run_pty_shell w).2 = Outcome.err "Failed to create temp rcfile" c) ∧
    (∀ v c, w.vimLog = some v → w.rcfileCreate = none → w.rcfileWrite = some c →
        (run_pty_shell w).2 = Outcome.err "Failed to write vim alias to rcfile" c) ∧
    (∀ c, w.rcfileCreate = none → (w.vimLog = none ∨ w.rcfileWrite = none) →
        w.openPty = some c →
        (run_pty_shell w).2 = Outcome.err "Failed to open PTY" c) ∧
    (∀ c, w.rcfileCreate = none → (w.vimLog = none ∨ w.rcfileWrite = none) →
        w.openPty = none → w.spawn = some c →
        (run_pty_shell w).2 = Outcome.err "Failed to spawn shell" c) := by
  refine ⟨?_, ?_, ?_, ?_⟩
  · intro c hc
    rw [run_snd w hT]; simp [createRcStage, hc]
  · intro v c hv hc hw
    rw [run_snd w hT, createRc_snd w hc]; simp [writeRcStage, hv, hw]
  · intro c hc hwv hp
    rw [run_snd_to_openPty w hT hc hwv]; simp [openPtyStage, hp]
  · intro c hc hwv hp hs
    rw [run_snd_to_openPty w hT hc hwv, openPty_snd w hp]; simp [spawnStage, hs]

/-- Claim C8 witness: a run whose spawn fails returns the spawn error with
its cause. -/
theorem claim_C8_witness :
    (run_pty_shell wSpawnFail).2 = Outcome.err "Failed to spawn shell" "ENOENT" :=
  (claim_C8 wSpawnFail (Or.inl rfl)).2.2.2 "ENOENT" rfl (Or.inl rfl) rfl rfl

/-- Claim C9 counterexample: when the wait on the child fails,
run_pty_shell does not complete; it returns the wait error (which main
then propagates), and the input thread is never joined. -/
theorem claim_C9_counterexample :
    (run_pty_shell wWaitFail).2 = Outcome.err "PTY child process failed" "ECHILD" ∧
    (run_pty_shell wWaitFail).2 ≠ Outcome.ok ∧
    Effect.inputJoined ∉ (run_pty_shell wWaitFail).1 :=
  ⟨rfl, by decide, by decide⟩

/-- Claim C9 (amended): a failure to retrieve the child exit status is
fatal: run_pty_shell returns the wait error by the question mark operator,
main propagates it, and the input thread is not joined, although the wait
itself did run after the relay. -/
theorem claim_C9 (w : World) (c : String)
    (hT : w.transcriptPath = none ∨ w.transcriptCreate = none)
    (hc : w.rcfileCreate = none) (hwv : w.vimLog = none ∨ w.rcfileWrite = none)
    (hp : w.openPty = none) (hs : w.spawn = none) (hr : w.cloneReader = none)
    (htw : w.takeWriter = none)
    (hct : w.transcriptPath = none ∨ w.cloneTranscript = none)
    (hw : w.wait = some c) :
    (run_pty_shell w).2 = Outcome.err "PTY child process failed" c ∧
    mainPty w = Outcome.err "PTY child process failed" c ∧
    Effect.childWaited ∈ (run_pty_shell w).1 ∧
    Effect.inputJoined ∉ (run_pty_shell w).1 := by
  have oT : w.transcriptPath.isSome = false ∨ w.transcriptCreate.isNone = true := by
    rcases hT with h | h
    · exact Or.inl (by simp [h])
    · exact Or.inr (by simp [h])
  have oJ : w.transcriptPath.isSome = false ∨ w.cloneTranscript.isNone = true := by
    rcases hct with h | h
    · exact Or.inl (by simp [h])
    · exact Or.inr (by simp [h])
  have oW : w.vimLog.isSome = false ∨ w.rcfileWrite.isNone = true := by
    rcases hwv with h | h
    · exact Or.inl (by simp [h])
    · exact Or.inr (by simp [h])
  have hout : (run_pty_shell w).2 = Outcome.err "PTY child process failed" c := by
    rw [run_snd_to_wait w hT hc hwv hp hs hr htw hct]; simp [waitStage, hw]
  refine ⟨hout, hout, ?_, ?_⟩
  · rw [run_effects_eq w]
    simp only [hc, hp, hs, hr, htw, hw, Option.isNone_none, Option.isNone_some]
    exact (flags_wait_fail _ _ _ _ _ oT oJ oW).1
  · rw [run_effects_eq w]
    simp only [hc, hp, hs, hr, htw, hw, Option.isNone_none, Option.isNone_some]
    exact (flags_wait_fail _ _ _ _ _ oT oJ oW).2

/-- Claim C9 witness: the fatal wait failure at a concrete run. -/
theorem claim_C9_witness :
    (run_pty_shell wWaitFail).2 = Outcome.err "PTY child process failed" "ECHILD" ∧
    mainPty wWaitFail = Outcome.err "PTY child process failed" "ECHILD" ∧
    Effect.childWaited ∈ (run_pty_shell wWaitFail).1 ∧
    Effect.inputJoined ∉ (run_pty_shell wWaitFail).1 :=
  claim_C9 wWaitFail "ECHILD" (Or.inl rfl) rfl (Or.inl rfl) rfl rfl rfl rfl
    (Or.inl rfl) rfl

/-- Claim C10: the rcfile content is a pure function of KUBELINGO_VIM_LOG:
empty when unset, and exactly one alias line wrapping vim with the log
path interpolated verbatim and unescaped when set; the file is created and
passed to bash via a --rcfile argument even when the variable is unset. -/
theorem claim_C10 :
    rcfileContent none = "" ∧
    (∀ v, rcfileContent (some v) =
      "alias vim=" ++ squote ++ "vim -W " ++ v ++ squote ++ "\n") ∧
    (∀ v : String, v.data <:+: (rcfileContent (some v)).data) ∧
    (∀ v : String, (rcfileContent (some v)).length = v.length + 20) ∧
    (∀ w : World, w.vimLog = none →
        (w.transcriptPath = none ∨ w.transcriptCreate = none) →
        w.rcfileCreate = none →
        Effect.rcfileCreated ∈ (run_pty_shell w).1 ∧
        (builtCmd w.rcPath).args = ["--rcfile", w.rcPath]) := by
  refine ⟨rfl, fun v => rfl, ?_, ?_, ?_⟩
  · intro v
    exact ⟨("alias vim=" ++ squote ++ "vim -W ").data, (squote ++ "\n").data, by
      simp [rcfileContent, String.data_append]⟩
  · intro v
    have h1 : "alias vim=".length = 10 := rfl
    have h2 : "vim -W ".length = 7 := rfl
    have h3 : "\n".length = 1 := rfl
    have h4 : squote.length = 1 := rfl
    simp [rcfileContent, String.length_append, h1, h2, h3, h4]
    omega
  · intro w hv hT hc
    have oT : w.transcriptPath.isSome = false ∨ w.transcriptCreate.isNone = true := by
      rcases hT with h | h
      · exact Or.inl (by simp [h])
      · exact Or.inr (by simp [h])
    constructor
    · rw [run_effects_eq w]
      simp only [hv, hc, Option.isNone_none, Option.isSome_none]
      exact flags_rcCreated _ _ _ _ _ _ _ _ _ oT
    · rfl

/-- Claim C10 witness: the rcfile is created and passed via --rcfile in a
concrete run with no vim log configured. -/
theorem claim_C10_witness :
    Effect.rcfileCreated ∈ (run_pty_shell wNoLog).1 ∧
    (builtCmd wNoLog.rcPath).args = ["--rcfile", wNoLog.rcPath] :=
  claim_C10.2.2.2.2 wNoLog rfl (Or.inl rfl) rfl

end Kubelingo
